import Mathlib

/-!
Verification development for the ThisismusicEnt/MusicTool repository
(src/main.py, src/gui.py, src/chat.py): a shallow embedding of the
orchestration code (prompt building, PDF export, audio download,
command dispatch loop) together with theorems about its behaviour.

External services (the chat-completion API, the speech-to-text API, the
media downloader, the FPDF rendering primitives, HTTP fetches and local
file reads) are modelled as oracles (`Except`-valued functions supplied
in an environment record); everything the repository itself computes is
translated directly from the Python source.
-/

namespace MusicTool

/-! ### Python string primitives used by the source -/

/-- Whitespace as recognised by Python `str.strip()` (ASCII part). -/
def pyIsSpace (c : Char) : Bool :=
  c == ' ' || c == '\t' || c == '\n' || c == '\r' || c == '\x0B' || c == '\x0C'

/-- Python `s.strip()`: remove leading and trailing whitespace. -/
def pyStrip (s : String) : String :=
  ⟨((s.data.dropWhile pyIsSpace).reverse.dropWhile pyIsSpace).reverse⟩

/-- Python `s.lower()` (ASCII letters, the only ones the source compares). -/
def pyLower (s : String) : String := ⟨s.data.map Char.toLower⟩

/-- Python `s.startswith(p)`. -/
def pyStartsWith (s p : String) : Bool := p.data.isPrefixOf s.data

/-- Python `needle in hay` for strings (substring containment). -/
def pyInStr (needle hay : String) : Bool :=
  hay.data.tails.any (fun t => needle.data.isPrefixOf t)

/-- Python `str.splitlines()` on the line terminators `\n`, `\r\n`, `\r`. -/
def pySplitLinesAux : List Char → List Char → List String
  | [], cur => if cur.isEmpty then [] else [⟨cur.reverse⟩]
  | '\r' :: '\n' :: rest, cur => (⟨cur.reverse⟩ : String) :: pySplitLinesAux rest []
  | '\r' :: rest, cur => (⟨cur.reverse⟩ : String) :: pySplitLinesAux rest []
  | '\n' :: rest, cur => (⟨cur.reverse⟩ : String) :: pySplitLinesAux rest []
  | c :: rest, cur => pySplitLinesAux rest (c :: cur)

def pySplitLines (s : String) : List String := pySplitLinesAux s.data []

/-- Python `s[:10000]` as used in `crawl_and_generate_article`
(src/main.py lines 243-244, src/gui.py lines 257-258). -/
def pySlice10000 (s : String) : String :=
  if s.length > 10000 then ⟨s.data.take 10000⟩ else s

/-! ### Prompt construction (src/main.py `generate_output`, lines 29-51;
identical in src/gui.py lines 32-54) -/

/-- Instruction prefix of the "lyrics" prompt template (src/main.py lines 37-40). -/
def lyricsPromptHead : String :=
  "You are a digital music consultant.\nGiven the following transcription of a song, please rewrite the lyrics exactly as sung, with clear line breaks for verses.\nTranscription:\n"

/-- Instruction prefix of the "article" prompt template (src/main.py lines 42-45). -/
def articlePromptHead : String :=
  "You are a digital music consultant.\nGiven the following transcription of an audio file or website text, generate a well-structured article discussing its content.\nTranscription:\n"

/-- Instruction prefix of the "summarize" prompt template (src/main.py lines 47-49). -/
def summarizePromptHead : String :=
  "You are a digital music consultant.\nPlease summarize the following text in a concise and clear manner:\n"

/-- The prompt `generate_output` builds for a task label
(src/main.py lines 36-51): the f-string templates place `text` at the
very end of the instruction prefix. -/
def buildPrompt (text task : String) : String :=
  if task = "lyrics" then lyricsPromptHead ++ text
  else if task = "article" then articlePromptHead ++ text
  else if task = "summarize" then summarizePromptHead ++ text
  else text

/-! ### The chat-completion service oracle and the content generator -/

/-- Oracle for `openai.ChatCompletion.create`: maps the prompt to either
the message content or the text of a raised exception. -/
structure ChatEnv where
  complete : String → Except String String

/-- Embedding of `generate_output` (src/main.py lines 29-63): build the prompt, call the
service, strip the content; a raised exception is converted to an error
string and returned as the ordinary result. -/
def generate_output (env : ChatEnv) (text task : String) : String :=
  match env.complete (buildPrompt text task) with
  | .ok content => pyStrip content
  | .error e => "Error during GPT processing: " ++ e

/-- Embedding of `chat_with_api` (src/main.py lines 208-220). -/
def chat_with_api (env : ChatEnv) (p : String) : String :=
  match env.complete p with
  | .ok content => pyStrip content
  | .error e => "Error: " ++ e

/-- Prompt of `generate_press_release` (src/main.py lines 67-73). -/
def pressReleasePrompt (song_title artist_name release_date album_description : String) : String :=
  "You are a digital music consultant and marketing expert.\nGenerate a professional press release for the following details:\nSong/Album Title: " ++ song_title ++ "\nArtist Name: " ++ artist_name ++ "\nRelease Date: " ++ release_date ++ "\nAlbum Description: " ++ album_description ++ "\nOutput only the press release text."

/-- Embedding of `generate_press_release` (src/main.py lines 65-83). -/
def generate_press_release (env : ChatEnv) (song_title artist_name release_date album_description : String) : String :=
  match env.complete (pressReleasePrompt song_title artist_name release_date album_description) with
  | .ok content => pyStrip content
  | .error e => "Error generating press release: " ++ e

/-- Prompt of `generate_social_media_post` (src/main.py lines 87-89). -/
def socialPostPrompt (song_title artist_name : String) : String :=
  "You are a digital music consultant with expertise in social media marketing.\nWrite an engaging and concise social media post to promote the song \"" ++ song_title ++ "\" by " ++ artist_name ++ ".\nOutput only the post text."

/-- Embedding of `generate_social_media_post` (src/main.py lines 85-99). -/
def generate_social_media_post (env : ChatEnv) (song_title artist_name : String) : String :=
  match env.complete (socialPostPrompt song_title artist_name) with
  | .ok content => pyStrip content
  | .error e => "Error generating social media post: " ++ e

/-- Prompt of `generate_epk` (src/main.py lines 103-110). -/
def epkPrompt (artist_name background_info achievements social_links press_quotes : String) : String :=
  "You are a digital music consultant and marketing expert.\nGenerate a comprehensive Electronic Press Kit (EPK) for the artist \"" ++ artist_name ++ "\".\nInclude:\n- Background Information: " ++ background_info ++ "\n- Achievements: " ++ achievements ++ "\n- Social Media/Website Links: " ++ social_links ++ "\n- Press Quotes: " ++ press_quotes ++ "\nOutput only the EPK text."

/-- Embedding of `generate_epk` (src/main.py lines 101-120). -/
def generate_epk (env : ChatEnv) (artist_name background_info achievements social_links press_quotes : String) : String :=
  match env.complete (epkPrompt artist_name background_info achievements social_links press_quotes) with
  | .ok content => pyStrip content
  | .error e => "Error generating EPK: " ++ e

/-! ### Website text extraction (crawl path, src/main.py lines 236-248) -/

/-- The cleaning of the crawled page text (src/main.py lines 240-244):
split the extracted raw text into lines, strip each, drop the blank
ones, rejoin with newlines, then truncate to 10000 characters. -/
def crawlCleanedText (raw_text : String) : String :=
  pySlice10000 (String.intercalate "\n"
    (((pySplitLines raw_text).map pyStrip).filter (fun l => !l.isEmpty)))

/-- The prompt that `crawl_and_generate_article` ultimately sends
(src/main.py line 248: `generate_output(cleaned_text, task="article")`). -/
def crawlArticlePrompt (raw_text : String) : String :=
  buildPrompt (crawlCleanedText raw_text) "article"

/-! ### The FPDF document model and the filesystem -/

/-- A cell placed on a PDF page: a text cell (`pdf.multi_cell` /
`pdf.cell`) or an embedded image (`pdf.image`). -/
inductive PdfCell where
  | textCell (w h : Nat) (content : String)
  | imageCell (path : String) (w : Nat)
deriving DecidableEq

/-- The FPDF builder state: pages are kept most-recent-first (the head is
the page currently being written). -/
structure PdfState where
  pages : List (List PdfCell)
  font : Option (String × Nat)
deriving DecidableEq

/-- Constructor call `FPDF()`. -/
def pdfInit : PdfState := ⟨[], none⟩

/-- Method `pdf.add_page()`. -/
def pdfAddPage (p : PdfState) : PdfState := { p with pages := [] :: p.pages }

/-- Method `pdf.set_font(name, size=size)`. -/
def pdfSetFont (p : PdfState) (f : String) (size : Nat) : PdfState :=
  { p with font := some (f, size) }

/-- Place a cell on the current page (no-op when no page was added,
as FPDF would refuse). -/
def pdfPut (p : PdfState) (c : PdfCell) : PdfState :=
  match p.pages with
  | [] => p
  | pg :: rest => { p with pages := (pg ++ [c]) :: rest }

/-- The rendered document: pages in reading order. -/
structure PdfDoc where
  pages : List (List PdfCell)
deriving DecidableEq

/-- Method `pdf.output(filename)`: renders the accumulated pages. -/
def pdfRender (p : PdfState) : PdfDoc := ⟨p.pages.reverse⟩

/-- A file on disk: a rendered PDF, a downloaded media file (tagged with
the URL it came from), or a text file. -/
inductive FileData where
  | pdf (doc : PdfDoc)
  | media (srcUrl : String)
  | textFile (content : String)
deriving DecidableEq

/-- The filesystem: a partial map from paths to file contents. -/
abbrev FS := String → Option FileData

def FS.set (fs : FS) (p : String) (d : FileData) : FS :=
  fun q => if q = p then some d else fs q

def FS.del (fs : FS) (p : String) : FS :=
  fun q => if q = p then none else fs q

def emptyFS : FS := fun _ => none

/-- Relation stating that `fs2` holds no PDF file that `fs` did not already hold. -/
def NoNewPdf (fs fs2 : FS) : Prop :=
  ∀ p d, fs2 p = some (.pdf d) → fs p = some (.pdf d)

/-- Oracle for the outcomes of the FPDF library calls that the source
wraps in `try`/`except`: whether laying out a given text block succeeds
and whether embedding a given image file succeeds. -/
structure FpdfEnv where
  multiCellOk : String → Except String Unit
  imageOk : String → Except String Unit

/-! ### The three `text_to_pdf` definitions and `create_pdf_with_images` -/

/-- Embedding of `text_to_pdf` in src/gui.py (lines 124-134): one page of text; on an
FPDF failure returns the string `"Error generating PDF: ..."` instead of
the filename and writes nothing. -/
def gui_text_to_pdf (env : FpdfEnv) (text output_filename : String) (fs : FS) : String × FS :=
  match env.multiCellOk text with
  | .ok _ =>
    let pdf := pdfPut (pdfSetFont (pdfAddPage pdfInit) "Arial" 12) (.textCell 0 10 text)
    (output_filename, fs.set output_filename (.pdf (pdfRender pdf)))
  | .error e => ("Error generating PDF: " ++ e, fs)

/-- The FIRST `text_to_pdf` of src/main.py (lines 122-133): like the GUI
one, but the failure branch prints and returns the empty string. -/
def main_text_to_pdf_v1 (env : FpdfEnv) (text output_filename : String) (fs : FS) : String × FS :=
  match env.multiCellOk text with
  | .ok _ =>
    let pdf := pdfPut (pdfSetFont (pdfAddPage pdfInit) "Arial" 12) (.textCell 0 10 text)
    (output_filename, fs.set output_filename (.pdf (pdfRender pdf)))
  | .error _ => ("", fs)

/-- The local and global names in scope inside the body of the second
`text_to_pdf` of src/main.py that could be iterated over: the module
defines no variable called `image_paths` anywhere (the name occurs only
in its docstring and in the undefined reference on line 145), so this
scope list is empty. -/
def text_to_pdf_v2_scopeLists : List (String × List String) := []

/-- CPython name resolution for a variable expected to hold a list:
an unbound name raises `NameError: name ... is not defined`. -/
def pyLookupList (scope : List (String × List String)) (n : String) : Except String (List String) :=
  match scope.find? (fun p => p.1 == n) with
  | some p => .ok p.2
  | none => .error ("name " ++ n ++ " is not defined")

/-- Embedding one image inside the per-image `try`/`except`
(src/gui.py lines 219-224, same loop text in src/main.py lines 145-150):
on failure a text cell recording the error is placed instead. -/
def imgStep (env : FpdfEnv) (p : PdfState) (img : String) : PdfState :=
  let p1 := pdfAddPage p
  match env.imageOk img with
  | .ok _ => pdfPut p1 (.imageCell img 100)
  | .error e => pdfPut p1 (.textCell 0 10 ("Error embedding image " ++ img ++ ": " ++ e))

/-- The cell that `imgStep` places for an image. -/
def imgCellFor (env : FpdfEnv) (img : String) : PdfCell :=
  match env.imageOk img with
  | .ok _ => .imageCell img 100
  | .error e => .textCell 0 10 ("Error embedding image " ++ img ++ ": " ++ e)

/-- The `try` block of the SECOND `text_to_pdf` of src/main.py
(lines 135-152): text page, then `for img in image_paths:` — but
`image_paths` is not bound anywhere in scope, so the loop head raises
`NameError` after the text page has been laid out. -/
def main_text_to_pdf_v2_body (env : FpdfEnv) (text : String) : Except String PdfDoc :=
  match env.multiCellOk text with
  | .error e => .error e
  | .ok _ =>
    let pdf1 := pdfPut (pdfSetFont (pdfAddPage pdfInit) "Arial" 12) (.textCell 0 10 text)
    match pyLookupList text_to_pdf_v2_scopeLists "image_paths" with
    | .error e => .error e
    | .ok image_paths => .ok (pdfRender (image_paths.foldl (imgStep env) pdf1))

/-- The SECOND `text_to_pdf` of src/main.py (lines 135-154): its
`except` converts any exception from the body — including the
`NameError` — into the string `"Error generating PDF with images: ..."`;
`pdf.output` is reached only after the loop, so nothing is written. -/
def main_text_to_pdf (env : FpdfEnv) (text output_filename : String) (fs : FS) : String × FS :=
  match main_text_to_pdf_v2_body env text with
  | .ok doc => (output_filename, fs.set output_filename (.pdf doc))
  | .error e => ("Error generating PDF with images: " ++ e, fs)

/-- The type of a `text_to_pdf`-shaped module member. -/
abbrev PdfExporter := FpdfEnv → String → String → FS → String × FS

/-- A `def` statement executed at module import time: a later binding of
the same name replaces (shadows) the earlier one. -/
def pyModuleBind (ns : List (String × PdfExporter)) (n : String) (v : PdfExporter) :
    List (String × PdfExporter) :=
  (n, v) :: ns.filter (fun p => p.1 != n)

/-- The module namespace of src/main.py restricted to its two
`text_to_pdf` definitions, bound in source order (lines 122 and 135). -/
def mainPyPdfNamespace : List (String × PdfExporter) :=
  pyModuleBind (pyModuleBind [] "text_to_pdf" main_text_to_pdf_v1) "text_to_pdf" main_text_to_pdf

/-- Name lookup in the module namespace. -/
def nsLookup (ns : List (String × PdfExporter)) (n : String) : Option PdfExporter :=
  (ns.find? (fun p => p.1 == n)).map (fun p => p.2)

/-- The `create_pdf_with_images` body (src/gui.py lines 214-225): text page,
then one page per image, each image embedded inside its own
`try`/`except`. -/
def cpwiBody (env : FpdfEnv) (text : String) (image_paths : List String) : Except String PdfDoc :=
  match env.multiCellOk text with
  | .error e => .error e
  | .ok _ =>
    let pdf1 := pdfPut (pdfSetFont (pdfAddPage pdfInit) "Arial" 12) (.textCell 0 10 text)
    .ok (pdfRender (image_paths.foldl (imgStep env) pdf1))

/-- Embedding of `create_pdf_with_images` (src/gui.py lines 209-228). -/
def create_pdf_with_images (env : FpdfEnv) (text output_filename : String)
    (image_paths : List String) (fs : FS) : String × FS :=
  match cpwiBody env text image_paths with
  | .ok doc => (output_filename, fs.set output_filename (.pdf doc))
  | .error e => ("Error generating PDF with images: " ++ e, fs)

/-! ### Timestamped download filenames (src/main.py lines 163-164, 266;
src/gui.py lines 170-171, 280, 327-328) -/

/-- A wall-clock instant as `datetime.datetime.now()` reports it. -/
structure PyDateTime where
  year : Nat
  month : Nat
  day : Nat
  hour : Nat
  minute : Nat
  second : Nat
  micro : Nat
deriving DecidableEq

/-- Fixed-width zero-padded decimal rendering, as `strftime` does for
each numeric field. -/
def padDigits : Nat → Nat → List Char
  | 0, _ => []
  | w + 1, n => padDigits w (n / 10) ++ [Nat.digitChar (n % 10)]

/-- Format `strftime("%Y%m%d%H%M%S")`: the second-resolution timestamp used for
audio downloads (src/main.py line 163). -/
def fmtYmdHMS (dt : PyDateTime) : List Char :=
  padDigits 4 dt.year ++ padDigits 2 dt.month ++ padDigits 2 dt.day ++
    padDigits 2 dt.hour ++ padDigits 2 dt.minute ++ padDigits 2 dt.second

/-- Format `strftime("%Y%m%d%H%M%S%f")`: the microsecond-resolution timestamp
used for downloaded images (src/main.py line 266, src/gui.py line 327). -/
def fmtYmdHMSf (dt : PyDateTime) : List Char :=
  fmtYmdHMS dt ++ padDigits 6 dt.micro

/-- The audio filename produced by instantiating the `get_audio` output
template `{timestamp}_%(title)s.%(ext)s` (src/main.py line 164) with the
media title and extension; paths are shown relative to the working
directory. -/
def audioDownloadName (dt : PyDateTime) (title ext : String) : String :=
  "downloads/" ++ (⟨fmtYmdHMS dt⟩ : String) ++ "_" ++ title ++ "." ++ ext

/-- The crawled-image filename `img_{...%f}.jpg`
(src/main.py line 266, src/gui.py line 280). -/
def crawlImageName (dt : PyDateTime) : String :=
  "downloads/img_" ++ (⟨fmtYmdHMSf dt⟩ : String) ++ ".jpg"

/-- The crawled-image filename `webimg_{...%f}.jpg`
(src/main.py line 311, src/gui.py line 328). -/
def webImageName (dt : PyDateTime) : String :=
  "downloads/webimg_" ++ (⟨fmtYmdHMSf dt⟩ : String) ++ ".jpg"

/-- Two instants within the same wall-clock second: all fields but the
microseconds agree. -/
def sameSecond (a b : PyDateTime) : Prop :=
  a.year = b.year ∧ a.month = b.month ∧ a.day = b.day ∧
    a.hour = b.hour ∧ a.minute = b.minute ∧ a.second = b.second

instance (a b : PyDateTime) : Decidable (sameSecond a b) := by
  unfold sameSecond; infer_instance

/-! ### The downloader (`get_audio`) and the input resolvers -/

/-- Oracle for `yt_dlp.YoutubeDL.extract_info` + `prepare_filename`:
maps the URL to the reported downloaded filename, or to the text of the
exception the downloader raised. -/
structure DlEnv where
  extract : String → Except String String

/-- Embedding of `os.path.splitext`: split off the extension (the suffix starting at
the last dot of the basename, unless that dot only leads the basename). -/
def pySplitExt (path : String) : String × String :=
  let r := path.data.reverse
  let pre := r.takeWhile (fun c => !(c == '.') && !(c == '/'))
  match r.drop pre.length with
  | '.' :: rest2 =>
    if (rest2.takeWhile (fun c => !(c == '/'))).any (fun c => !(c == '.')) then
      (⟨rest2.reverse⟩, ⟨'.' :: pre.reverse⟩)
    else (path, "")
  | _ => (path, "")

/-- The extension fix-up at the end of `get_audio`
(src/main.py lines 179-181). -/
def fixDownloadName (downloaded_filename desired_format : String) : String :=
  let be := pySplitExt downloaded_filename
  if pyLower be.2 != "." ++ desired_format then be.1 ++ "." ++ desired_format
  else downloaded_filename

/-- Embedding of `get_audio` (src/main.py lines 156-184, identical in src/gui.py
lines 163-191): invoke the downloader on the URL (the invocation is
recorded in `trace`), fix the extension, and place the downloaded file
on disk; a downloader exception becomes the string
`"Error downloading audio: ..."`. -/
def get_audio (env : DlEnv) (url desired_format : String) (fs : FS) (trace : List String) :
    String × FS × List String :=
  match env.extract url with
  | .ok downloaded0 =>
    let downloaded := fixDownloadName downloaded0 desired_format
    (downloaded, fs.set downloaded (.media url), trace ++ [url])
  | .error e => ("Error downloading audio: " ++ e, fs, trace ++ [url])

/-! ### Environments and the interactive inputs of one command -/

/-- Oracles for every external collaborator one command may touch. -/
structure Env where
  chat : ChatEnv
  whisper : String → Except String String
  dl : DlEnv
  fpdf : FpdfEnv
  readFile : String → Except String String
  httpGet : String → Except String String

/-- Embedding of `transcribe_audio` (src/main.py lines 20-27, same in src/gui.py). -/
def transcribe_audio (env : Env) (audio_file_path : String) : String :=
  match env.whisper audio_file_path with
  | .ok t => t
  | .error e => "Error during transcription: " ++ e

/-- The answers a user gives to the interactive prompts of one command
of src/main.py (each is read with `input(...).strip()`). -/
structure UserInputs where
  mode : String
  audioPath : String
  url : String
  pdfName : String
  fmtChoice : String
  sourceChoice : String
  processChoice : String
  sumChoice : String
  textFilePath : String
  prTitle : String
  prArtist : String
  prDate : String
  prDesc : String
  epkArtist : String
  epkBackground : String
  epkAchievements : String
  epkLinks : String
  epkQuotes : String
  epkPdfChoice : String
  chatMsg : String

/-- Embedding of `prompt_for_audio_source` (src/main.py lines 186-206): local path,
or download by URL — any URL, with no host blocking; a download whose
result string starts with `"Error"` is reported and becomes `""`. -/
def prompt_for_audio_source (env : Env) (u : UserInputs) (fs : FS) (trace : List String) :
    String × FS × List String :=
  let mode := pyStrip u.mode
  if mode = "1" then (pyStrip u.audioPath, fs, trace)
  else if mode = "2" then
    let r := get_audio env.dl (pyStrip u.url) "mp3" fs trace
    if pyStartsWith r.1 "Error" then ("", r.2.1, r.2.2) else r
  else ("", fs, trace)

/-! ### GUI entry points (src/gui.py) -/

/-- Embedding of `transcribe_audio_gui` (src/gui.py lines 530-540): an uploaded file
takes precedence; otherwise a non-empty URL is checked against the
YouTube hosts before any download; otherwise no audio. -/
def transcribe_audio_gui (env : Env) (file : Option String) (url format_choice : String)
    (fs : FS) (trace : List String) : String × FS × List String :=
  match file with
  | some f => (transcribe_audio env f, fs, trace)
  | none =>
    if url != "" then
      if pyInStr "youtube.com" (pyLower url) || pyInStr "youtu.be" (pyLower url) then
        ("YouTube links are not supported. Please use SoundCloud or another provider.", fs, trace)
      else
        let r := get_audio env.dl url format_choice fs trace
        (transcribe_audio env r.1, r.2.1, r.2.2)
    else ("No audio provided.", fs, trace)

/-- Embedding of `get_audio_gui` (src/gui.py lines 574-578): rejects YouTube hosts
before attempting any download. -/
def get_audio_gui (env : Env) (url format_choice : String) (fs : FS) (trace : List String) :
    String × FS × List String :=
  if pyInStr "youtube.com" (pyLower url) || pyInStr "youtu.be" (pyLower url) then
    ("YouTube links are not supported. Please use SoundCloud or another provider.", fs, trace)
  else get_audio env.dl url format_choice fs trace

/-- Embedding of `generate_lyrics_gui` (src/gui.py lines 542-548): transcribe (maybe
downloading first), generate the lyrics, export the PDF; the downloaded
audio file is never deleted. -/
def generate_lyrics_gui (env : Env) (file : Option String) (url format_choice pdf_filename : String)
    (fs : FS) (trace : List String) : String × Option String × FS × List String :=
  let t := transcribe_audio_gui env file url format_choice fs trace
  if pyStartsWith t.1 "Error" || t.1 == "No audio provided." then (t.1, none, t.2.1, t.2.2)
  else
    let lyrics := generate_output env.chat t.1 "lyrics"
    let r := gui_text_to_pdf env.fpdf lyrics pdf_filename t.2.1
    (lyrics, some r.1, r.2, t.2.2)

/-! ### Image crawling (`crawl_images_gui`, src/gui.py lines 296-335;
same text in src/main.py lines 279-318) -/

/-- Oracles for the website-crawling collaborators: the page fetch
(`requests.get`), the image-URL extraction (BeautifulSoup
`find_all("img")` with `urljoin` resolution, wrapped in the second
`try`/`except`), and the per-image fetch. -/
structure CrawlEnv where
  page : String → Except String String
  images : String → Except String (List String)
  imgGet : String → Except String Unit

/-- The image-download loop of `crawl_images_gui` (src/gui.py lines
323-335): every successfully fetched image is written under a fresh
`webimg_` timestamp name and appended to the result list; a failed fetch
is reported and skipped; no file is ever deleted. `clock` supplies the
successive `datetime.datetime.now()` readings. -/
def crawlImagesLoop (env : CrawlEnv) (clock : Nat → PyDateTime) :
    List String → Nat → FS → FS × List String
  | [], _, fs => (fs, [])
  | url :: rest, i, fs =>
    match env.imgGet url with
    | .ok _ =>
      let fname := webImageName (clock i)
      let r := crawlImagesLoop env clock rest (i + 1) (fs.set fname (.media url))
      (r.1, fname :: r.2)
    | .error _ => crawlImagesLoop env clock rest i fs

/-- Embedding of `crawl_images_gui` (src/gui.py lines 296-335): fetch
the page, extract the image URLs, download each; a page fetch or parse
failure returns the error message as the sole list entry and touches
nothing. -/
def crawl_images_gui (env : CrawlEnv) (clock : Nat → PyDateTime) (crawl_url : String)
    (fs : FS) : List String × FS :=
  match env.page crawl_url with
  | .error e => (["Error retrieving website: " ++ e], fs)
  | .ok html =>
    match env.images html with
    | .error e => (["Error parsing website content: " ++ e], fs)
    | .ok image_urls =>
      let r := crawlImagesLoop env clock image_urls 0 fs
      (r.2, r.1)

/-! ### The src/main.py command handlers (lines 348-512); each is the
body of one `elif` branch of the dispatch loop, returning the updated
filesystem and the downloader invocation trace -/

/-- The `/transcribe` branch (src/main.py lines 355-363): acquire audio,
transcribe, then delete the audio file if it exists. -/
def mainTranscribeCmd (env : Env) (u : UserInputs) (fs : FS) (trace : List String) :
    FS × List String :=
  let r := prompt_for_audio_source env u fs trace
  if r.1 = "" then (r.2.1, r.2.2)
  else
    let _transcript := transcribe_audio env r.1
    let fs2 := if (r.2.1 r.1).isSome then (r.2.1).del r.1 else r.2.1
    (fs2, r.2.2)

/-- The `/lyrics` and `/article` branches (src/main.py lines 366-389),
parameterised by the task label: acquire audio, transcribe, generate,
export the PDF through the effective `text_to_pdf`, delete the audio. -/
def mainLyricsArticleCmd (env : Env) (u : UserInputs) (task : String) (fs : FS)
    (trace : List String) : FS × List String :=
  let r := prompt_for_audio_source env u fs trace
  if r.1 = "" then (r.2.1, r.2.2)
  else
    let transcript := transcribe_audio env r.1
    let output_text := generate_output env.chat transcript task
    let p := main_text_to_pdf env.fpdf output_text (pyStrip u.pdfName) r.2.1
    let fs2 := if (p.2 r.1).isSome then (p.2).del r.1 else p.2
    (fs2, r.2.2)

/-- The `/summarize` branch (src/main.py lines 392-417). -/
def mainSummarizeCmd (env : Env) (u : UserInputs) (fs : FS) (trace : List String) :
    FS × List String :=
  let choice := pyStrip u.sumChoice
  if choice = "1" then
    match env.readFile (pyStrip u.textFilePath) with
    | .error _ => (fs, trace)
    | .ok text =>
      let output_text := generate_output env.chat text "summarize"
      ((main_text_to_pdf env.fpdf output_text (pyStrip u.pdfName) fs).2, trace)
  else if choice = "2" then
    match env.httpGet (pyStrip u.url) with
    | .error _ => (fs, trace)
    | .ok text =>
      let output_text := generate_output env.chat text "summarize"
      ((main_text_to_pdf env.fpdf output_text (pyStrip u.pdfName) fs).2, trace)
  else (fs, trace)

/-- The desired format chosen in the `/getaudio` branch
(src/main.py lines 424-431; an invalid choice defaults to mp3). -/
def mainGetAudioFmt (u : UserInputs) : String :=
  if pyStrip u.fmtChoice = "1" then "mp3"
  else if pyStrip u.fmtChoice = "2" then "wav"
  else "mp3"

/-- The `if downloaded_path:` tail of the `/getaudio` branch
(src/main.py lines 449-467): optionally transcribe-and-export, then
delete the file if it exists. -/
def mainGetAudioProcess (env : Env) (u : UserInputs) (downloaded_path : String) (fs : FS)
    (trace : List String) : FS × List String :=
  if downloaded_path = "" then (fs, trace)
  else
    let pc := pyStrip u.processChoice
    let fs2 :=
      if pc = "1" then
        (main_text_to_pdf env.fpdf
          (generate_output env.chat (transcribe_audio env downloaded_path) "lyrics")
          (pyStrip u.pdfName) fs).2
      else if pc = "2" then
        (main_text_to_pdf env.fpdf
          (generate_output env.chat (transcribe_audio env downloaded_path) "article")
          (pyStrip u.pdfName) fs).2
      else fs
    let fs3 := if (fs2 downloaded_path).isSome then fs2.del downloaded_path else fs2
    (fs3, trace)

/-- The `/getaudio` branch (src/main.py lines 420-467). -/
def mainGetAudioCmd (env : Env) (u : UserInputs) (fs : FS) (trace : List String) :
    FS × List String :=
  let src := pyStrip u.sourceChoice
  if src = "1" then
    let r := get_audio env.dl (pyStrip u.url) (mainGetAudioFmt u) fs trace
    if pyStartsWith r.1 "Error" then (r.2.1, r.2.2)
    else mainGetAudioProcess env u r.1 r.2.1 r.2.2
  else if src = "2" then
    let p := pyStrip u.audioPath
    if (fs p).isSome then mainGetAudioProcess env u p fs trace else (fs, trace)
  else (fs, trace)

/-- The `/pressrelease` branch (src/main.py lines 470-478). -/
def mainPressReleaseCmd (env : Env) (u : UserInputs) (fs : FS) (trace : List String) :
    FS × List String :=
  let output_text := generate_press_release env.chat (pyStrip u.prTitle) (pyStrip u.prArtist)
    (pyStrip u.prDate) (pyStrip u.prDesc)
  ((main_text_to_pdf env.fpdf output_text (pyStrip u.pdfName) fs).2, trace)

/-- The `/social` branch (src/main.py lines 481-486): generation only,
no file output. -/
def mainSocialCmd (env : Env) (u : UserInputs) (fs : FS) (trace : List String) :
    FS × List String :=
  let _post := generate_social_media_post env.chat (pyStrip u.prTitle) (pyStrip u.prArtist)
  (fs, trace)

/-- The `/epk` branch (src/main.py lines 489-501). -/
def mainEpkCmd (env : Env) (u : UserInputs) (fs : FS) (trace : List String) :
    FS × List String :=
  let epk_text := generate_epk env.chat (pyStrip u.epkArtist) (pyStrip u.epkBackground)
    (pyStrip u.epkAchievements) (pyStrip u.epkLinks) (pyStrip u.epkQuotes)
  if pyLower (pyStrip u.epkPdfChoice) = "y" then
    ((main_text_to_pdf env.fpdf epk_text (pyStrip u.pdfName) fs).2, trace)
  else (fs, trace)

/-- The command a (stripped) input line dispatches to, following the
`startswith` chain of src/main.py lines 355-512; anything unmatched is a
free-form chat message. -/
inductive MainCmd where
  | transcribe | lyrics | article | summarize | getaudio
  | pressrelease | social | epk | chatCmd | freeform
deriving DecidableEq

def parseCmd (user_input : String) : MainCmd :=
  if pyStartsWith user_input "/transcribe" then .transcribe
  else if pyStartsWith user_input "/lyrics" then .lyrics
  else if pyStartsWith user_input "/article" then .article
  else if pyStartsWith user_input "/summarize" then .summarize
  else if pyStartsWith user_input "/getaudio" then .getaudio
  else if pyStartsWith user_input "/pressrelease" then .pressrelease
  else if pyStartsWith user_input "/social" then .social
  else if pyStartsWith user_input "/epk" then .epk
  else if pyStartsWith user_input "/chat" then .chatCmd
  else .freeform

/-- Executing the branch a stripped input line selects
(src/main.py lines 355-512). -/
def runCmd (env : Env) (user_input : String) (u : UserInputs) (fs : FS) (trace : List String) :
    FS × List String :=
  match parseCmd user_input with
  | .transcribe => mainTranscribeCmd env u fs trace
  | .lyrics => mainLyricsArticleCmd env u "lyrics" fs trace
  | .article => mainLyricsArticleCmd env u "article" fs trace
  | .summarize => mainSummarizeCmd env u fs trace
  | .getaudio => mainGetAudioCmd env u fs trace
  | .pressrelease => mainPressReleaseCmd env u fs trace
  | .social => mainSocialCmd env u fs trace
  | .epk => mainEpkCmd env u fs trace
  | .chatCmd =>
    let _r := chat_with_api env.chat (pyStrip u.chatMsg)
    (fs, trace)
  | .freeform =>
    let _r := chat_with_api env.chat user_input
    (fs, trace)

/-- The two states of the dispatch loop. -/
inductive LoopState where
  | awaiting | terminated
deriving DecidableEq

/-- The exit test of src/main.py lines 349-352: the input is stripped on
read and its lowercase form compared against `exit` and `quit`. -/
def isExitInput (raw : String) : Bool :=
  pyLower (pyStrip raw) == "exit" || pyLower (pyStrip raw) == "quit"

/-- The `while True:` dispatch loop of `main` (src/main.py lines
348-512) run on a finite list of (input line, prompt answers) pairs:
`break` on the exit keywords, otherwise dispatch and loop. -/
def runLoop (env : Env) : List (String × UserInputs) → FS → List String →
    LoopState × FS × List String
  | [], fs, trace => (.awaiting, fs, trace)
  | (line, u) :: rest, fs, trace =>
    if isExitInput line then (.terminated, fs, trace)
    else
      let r := runCmd env (pyStrip line) u fs trace
      runLoop env rest r.1 r.2

/-! ### Concrete environments and inputs used to evaluate the model -/

/-- An environment in which every external call succeeds and the
downloader reports a fixed file. -/
def wEnv : Env where
  chat := ⟨fun _ => .ok "generated"⟩
  whisper := fun _ => .ok "a transcript"
  dl := ⟨fun _ => .ok "downloads/20250101000000_song.mp3"⟩
  fpdf := ⟨fun _ => .ok (), fun _ => .ok ()⟩
  readFile := fun _ => .ok "file text"
  httpGet := fun _ => .ok "page text"

/-- An FPDF oracle for which embedding `bad.jpg` fails and everything
else succeeds. -/
def wFpdfBad : FpdfEnv :=
  ⟨fun _ => .ok (), fun i => if i == "bad.jpg" then .error "broken" else .ok ()⟩

/-- An FPDF oracle for which laying out the text page fails. -/
def wFpdfErr : FpdfEnv := ⟨fun _ => .error "cellfail", fun _ => .ok ()⟩

/-- A chat-completion oracle that always raises. -/
def wChatErr : ChatEnv := ⟨fun _ => .error "boom"⟩

/-- One concrete set of prompt answers: link input, mp3, no processing. -/
def wInputs : UserInputs where
  mode := "2"
  audioPath := ""
  url := "http://soundcloud.com/a"
  pdfName := "out.pdf"
  fmtChoice := "1"
  sourceChoice := "1"
  processChoice := "3"
  sumChoice := "1"
  textFilePath := "notes.txt"
  prTitle := "Midnight"
  prArtist := "Nova"
  prDate := "2025-06-01"
  prDesc := "a dream-pop single"
  epkArtist := "Nova"
  epkBackground := "bg"
  epkAchievements := "ach"
  epkLinks := "links"
  epkQuotes := "quotes"
  epkPdfChoice := "y"
  chatMsg := "hello"

/-- Two instants inside the same wall-clock second. -/
def wDt1 : PyDateTime := ⟨2025, 6, 1, 12, 0, 0, 0⟩

def wDt2 : PyDateTime := ⟨2025, 6, 1, 12, 0, 0, 500000⟩

/-- A crawl environment with one image URL that downloads successfully. -/
def wCrawlEnv : CrawlEnv where
  page := fun _ => .ok "<html>"
  images := fun _ => .ok ["http://x/i1.jpg"]
  imgGet := fun _ => .ok ()

/-- A constant clock for the witness crawl run. -/
def wClock : Nat → PyDateTime := fun _ => wDt1

/-! ## Helper lemmas -/

theorem str_data_append (a b : String) : (a ++ b).data = a.data ++ b.data := rfl

theorem pySlice10000_length (s : String) : (pySlice10000 s).length ≤ 10000 := by
  unfold pySlice10000
  split
  · show (s.data.take 10000).length ≤ 10000
    simp [List.length_take]
  · omega

theorem pySlice10000_front (s : String) : (pySlice10000 s).data <+: s.data := by
  unfold pySlice10000
  split
  · exact ⟨s.data.drop 10000, List.take_append_drop 10000 s.data⟩
  · exact List.prefix_refl s.data

theorem pySlice10000_short (s : String) (h : s.length ≤ 10000) : pySlice10000 s = s := by
  unfold pySlice10000
  rw [if_neg]
  omega

/-! ## Claim theorems -/

/-- C1: for each task label in {lyrics, article, summarize} the prompt
built for the generation service is a fixed instruction prefix followed
by the input text itself, unmodified and untruncated; the crawl path
builds the article prompt from the cleaned page text truncated to at
most 10000 characters, the truncation being a pure prefix that leaves
any text of at most 10000 characters unchanged. -/
theorem c1_prompt_embeds_text_exactly (text raw s : String) :
    buildPrompt text "lyrics" = lyricsPromptHead ++ text
    ∧ buildPrompt text "article" = articlePromptHead ++ text
    ∧ buildPrompt text "summarize" = summarizePromptHead ++ text
    ∧ crawlArticlePrompt raw = articlePromptHead ++ crawlCleanedText raw
    ∧ (crawlCleanedText raw).length ≤ 10000
    ∧ (pySlice10000 s).data <+: s.data
    ∧ (s.length ≤ 10000 → pySlice10000 s = s) := by
  refine ⟨by simp [buildPrompt], by simp [buildPrompt], by simp [buildPrompt], ?_, ?_, ?_, ?_⟩
  · simp [crawlArticlePrompt, buildPrompt]
  · exact pySlice10000_length _
  · exact pySlice10000_front s
  · exact pySlice10000_short s

/-- Witness for C1: the truncation hypothesis holds at a short string and
the truncation leaves it unchanged. -/
theorem c1_prompt_embeds_text_exactly_witness :
    ("abc" : String).length ≤ 10000 ∧ pySlice10000 "abc" = "abc" :=
  ⟨by decide, (c1_prompt_embeds_text_exactly "t" "r" "abc").2.2.2.2.2.2 (by decide)⟩

/-- C5: when the generation-service call raises, `generate_output` does
not propagate the exception; it returns the descriptive string
`"Error during GPT processing: ..."` as its ordinary `String` result
(failure is visible only in the returned text). -/
theorem c5_generation_error_returned_as_string (env : ChatEnv) (text task e : String)
    (h : env.complete (buildPrompt text task) = .error e) :
    generate_output env text task = "Error during GPT processing: " ++ e := by
  simp [generate_output, h]

/-- Witness for C5 at an always-raising service oracle. -/
theorem c5_generation_error_returned_as_string_witness :
    wChatErr.complete (buildPrompt "some text" "lyrics") = .error "boom"
    ∧ generate_output wChatErr "some text" "lyrics" = "Error during GPT processing: boom" :=
  ⟨rfl, c5_generation_error_returned_as_string wChatErr "some text" "lyrics" "boom" rfl⟩

theorem FS.set_self (fs : FS) (p : String) (d : FileData) : (fs.set p d) p = some d := by
  unfold FS.set
  simp

theorem FS.set_set (fs : FS) (p : String) (d : FileData) :
    (fs.set p d).set p d = fs.set p d := by
  funext q
  unfold FS.set
  split <;> rfl

theorem gui_text_to_pdf_ok (env : FpdfEnv) (text fname : String) (fs : FS)
    (h : env.multiCellOk text = .ok ()) :
    gui_text_to_pdf env text fname fs
      = (fname, fs.set fname (.pdf ⟨[[.textCell 0 10 text]]⟩)) := by
  unfold gui_text_to_pdf
  rw [h]
  rfl

/-- C3 counterexample: one of the two cited `text_to_pdf` variants — the
effective one of src/main.py — at the concrete input ("hello",
"out.pdf") returns an error string rather than the file path and writes
no document (the repeated call fails identically), so export is not
"producing a readable document and returning the same file path both
times" for every variant. -/
theorem c3_counterexample :
    (main_text_to_pdf wEnv.fpdf "hello" "out.pdf" emptyFS).1 ≠ "out.pdf"
    ∧ ((main_text_to_pdf wEnv.fpdf "hello" "out.pdf" emptyFS).2) "out.pdf" = none
    ∧ main_text_to_pdf wEnv.fpdf "hello" "out.pdf"
        (main_text_to_pdf wEnv.fpdf "hello" "out.pdf" emptyFS).2
      = main_text_to_pdf wEnv.fpdf "hello" "out.pdf" emptyFS :=
  ⟨by decide, rfl, rfl⟩

/-- C3 (amended): the `text_to_pdf` of the GUI variant is idempotent — when
the text renders, it returns the filename, a second call with the same
arguments is the identity (same return pair, same overwritten file), and
the stored document is a nonempty document carrying the text; the
effective `text_to_pdf` of src/main.py instead deterministically fails
and writes nothing (see C2). -/
theorem c3_gui_export_idempotent (env : FpdfEnv) (text fname : String) (fs : FS)
    (h : env.multiCellOk text = .ok ()) :
    (gui_text_to_pdf env text fname fs).1 = fname
    ∧ gui_text_to_pdf env text fname (gui_text_to_pdf env text fname fs).2
        = gui_text_to_pdf env text fname fs
    ∧ ((gui_text_to_pdf env text fname fs).2) fname
        = some (.pdf ⟨[[.textCell 0 10 text]]⟩)
    ∧ (⟨[[.textCell 0 10 text]]⟩ : PdfDoc).pages ≠ [] := by
  rw [gui_text_to_pdf_ok env text fname fs h]
  refine ⟨rfl, ?_, ?_, by simp⟩
  · show gui_text_to_pdf env text fname (fs.set fname _) = _
    rw [gui_text_to_pdf_ok env text fname _ h, FS.set_set]
  · exact FS.set_self fs fname _

/-- Witness for the amended C3 theorem at a concrete succeeding renderer. -/
theorem c3_gui_export_idempotent_witness :
    wEnv.fpdf.multiCellOk "hello" = .ok ()
    ∧ (gui_text_to_pdf wEnv.fpdf "hello" "out.pdf" emptyFS).1 = "out.pdf" :=
  ⟨rfl, (c3_gui_export_idempotent wEnv.fpdf "hello" "out.pdf" emptyFS rfl).1⟩

theorem imgStep_eq (env : FpdfEnv) (p : PdfState) (img : String) :
    imgStep env p img = ⟨[imgCellFor env img] :: p.pages, p.font⟩ := by
  unfold imgStep imgCellFor pdfAddPage pdfPut
  cases env.imageOk img <;> rfl

theorem foldl_imgStep_pages (env : FpdfEnv) (imgs : List String) (p : PdfState) :
    (imgs.foldl (imgStep env) p).pages
      = (imgs.map (fun i => [imgCellFor env i])).reverse ++ p.pages := by
  induction imgs generalizing p with
  | nil => simp
  | cons i is ih =>
    simp only [List.foldl_cons, List.map_cons, List.reverse_cons]
    rw [ih, imgStep_eq]
    simp

/-- C4: the image-bearing document exporter `create_pdf_with_images`
handles a failing image embed per-image — the produced document has the
text page followed by one page per requested image, a failing image
yielding a recorded error cell in place of the picture — and still
writes the file and returns the output path; but when laying out the
base text page fails, the whole export fails: an error string is
returned instead of the path and nothing is written. -/
theorem c4_exporter_per_image_failure (env : FpdfEnv) (text fname : String)
    (imgs : List String) (fs : FS) :
    (env.multiCellOk text = .ok () →
      create_pdf_with_images env text fname imgs fs
        = (fname, fs.set fname (.pdf ⟨[PdfCell.textCell 0 10 text]
            :: imgs.map (fun i => [imgCellFor env i])⟩)))
    ∧ ∀ e, env.multiCellOk text = .error e →
      create_pdf_with_images env text fname imgs fs
        = ("Error generating PDF with images: " ++ e, fs) := by
  constructor
  · intro h
    unfold create_pdf_with_images cpwiBody
    rw [h]
    have hp := foldl_imgStep_pages env imgs
      (pdfPut (pdfSetFont (pdfAddPage pdfInit) "Arial" 12) (.textCell 0 10 text))
    simp only [pdfRender, hp]
    simp [pdfPut, pdfSetFont, pdfAddPage, pdfInit]
  · intro e h
    unfold create_pdf_with_images cpwiBody
    rw [h]

/-- Witness for C4: a concrete run with one good and one bad image, and a
concrete run whose base text page fails. -/
theorem c4_exporter_per_image_failure_witness :
    create_pdf_with_images wFpdfBad "t" "o.pdf" ["good.jpg", "bad.jpg"] emptyFS
      = ("o.pdf", emptyFS.set "o.pdf" (.pdf ⟨[PdfCell.textCell 0 10 "t"]
          :: (["good.jpg", "bad.jpg"].map (fun i => [imgCellFor wFpdfBad i]))⟩))
    ∧ create_pdf_with_images wFpdfErr "t" "o.pdf" [] emptyFS
      = ("Error generating PDF with images: cellfail", emptyFS) :=
  ⟨(c4_exporter_per_image_failure wFpdfBad "t" "o.pdf" ["good.jpg", "bad.jpg"] emptyFS).1 rfl,
   (c4_exporter_per_image_failure wFpdfErr "t" "o.pdf" [] emptyFS).2 "cellfail" rfl⟩

theorem padDigits_length (w n : Nat) : (padDigits w n).length = w := by
  induction w generalizing n with
  | zero => rfl
  | succ w ih => simp [padDigits, ih]

theorem digitChar_inj_lt10 : ∀ a b : Fin 10,
    Nat.digitChar a.val = Nat.digitChar b.val → a = b := by decide

theorem padDigits_inj (w : Nat) : ∀ n m : Nat, n < 10 ^ w → m < 10 ^ w →
    padDigits w n = padDigits w m → n = m := by
  induction w with
  | zero =>
    intro n m hn hm _
    omega
  | succ w ih =>
    intro n m hn hm h
    simp only [padDigits] at h
    have hlen : (padDigits w (n / 10)).length = (padDigits w (m / 10)).length := by
      simp [padDigits_length]
    obtain ⟨h1, h2⟩ := List.append_inj h hlen
    simp only [List.cons.injEq, and_true] at h2
    have hmod : n % 10 = m % 10 := by
      have h10 : (0 : Nat) < 10 := by norm_num
      have := digitChar_inj_lt10 ⟨n % 10, Nat.mod_lt n h10⟩ ⟨m % 10, Nat.mod_lt m h10⟩ h2
      exact congrArg Fin.val this
    have hq : n / 10 = m / 10 := by
      refine ih (n / 10) (m / 10) ?_ ?_ h1
      · exact (Nat.div_lt_iff_lt_mul (by norm_num)).mpr (by rw [← pow_succ]; exact hn)
      · exact (Nat.div_lt_iff_lt_mul (by norm_num)).mpr (by rw [← pow_succ]; exact hm)
    omega

theorem fmtYmdHMS_sameSecond (a b : PyDateTime) (h : sameSecond a b) :
    fmtYmdHMS a = fmtYmdHMS b := by
  obtain ⟨h1, h2, h3, h4, h5, h6⟩ := h
  unfold fmtYmdHMS
  rw [h1, h2, h3, h4, h5, h6]

/-- C9 counterexample: two audio downloads at distinct instants within
the same second, for a media item with the same title, receive the SAME
generated audio filename — uniqueness within a second fails. -/
theorem c9_counterexample :
    wDt1 ≠ wDt2 ∧ sameSecond wDt1 wDt2
    ∧ audioDownloadName wDt1 "song" "mp3" = audioDownloadName wDt2 "song" "mp3" :=
  ⟨by decide, by decide, by decide⟩

/-- C9 (amended): the audio filename carries only a second-resolution
timestamp prefix (plus the media title and extension), so any two audio
downloads within the same second with equal title and extension collide;
downloaded image filenames carry the microsecond-resolution timestamp,
so within the same second they differ whenever the microsecond fields
differ. -/
theorem c9_amended_timestamp_resolution (a b : PyDateTime) (title ext : String)
    (hs : sameSecond a b) :
    audioDownloadName a title ext = audioDownloadName b title ext
    ∧ (a.micro ≠ b.micro → a.micro < 1000000 → b.micro < 1000000 →
        crawlImageName a ≠ crawlImageName b) := by
  constructor
  · unfold audioDownloadName
    rw [fmtYmdHMS_sameSecond a b hs]
  · intro hne ha hb h
    apply hne
    have hd := congrArg String.data h
    simp only [crawlImageName, str_data_append, fmtYmdHMSf,
      fmtYmdHMS_sameSecond a b hs, List.append_assoc] at hd
    have h1 := List.append_cancel_left hd
    have h2 := List.append_cancel_left h1
    have h3 := List.append_cancel_right h2
    exact padDigits_inj 6 a.micro b.micro (by simpa using ha) (by simpa using hb) h3

/-- Witness for the amended C9 theorem at the two concrete instants. -/
theorem c9_amended_timestamp_resolution_witness :
    audioDownloadName wDt1 "song" "mp3" = audioDownloadName wDt2 "song" "mp3"
    ∧ crawlImageName wDt1 ≠ crawlImageName wDt2 := by
  have h := c9_amended_timestamp_resolution wDt1 wDt2 "song" "mp3" (by decide)
  exact ⟨h.1, h.2 (by decide) (by decide) (by decide)⟩

/-- C10: in the GUI transcription entry point an uploaded file takes
precedence — the file is transcribed and the URL is ignored entirely, so
the YouTube check fires only when no file is given and a non-empty URL
is; with neither input, "No audio provided." is returned. -/
theorem c10_gui_file_precedence (env : Env) (f url format_choice : String)
    (fs : FS) (trace : List String) :
    transcribe_audio_gui env (some f) url format_choice fs trace
      = (transcribe_audio env f, fs, trace)
    ∧ transcribe_audio_gui env none "" format_choice fs trace
      = ("No audio provided.", fs, trace)
    ∧ (url ≠ "" →
        (pyInStr "youtube.com" (pyLower url) || pyInStr "youtu.be" (pyLower url)) = true →
        transcribe_audio_gui env none url format_choice fs trace
          = ("YouTube links are not supported. Please use SoundCloud or another provider.",
              fs, trace))
    ∧ (url ≠ "" →
        (pyInStr "youtube.com" (pyLower url) || pyInStr "youtu.be" (pyLower url)) = false →
        transcribe_audio_gui env none url format_choice fs trace
          = (transcribe_audio env (get_audio env.dl url format_choice fs trace).1,
              (get_audio env.dl url format_choice fs trace).2.1,
              (get_audio env.dl url format_choice fs trace).2.2)) := by
  refine ⟨rfl, rfl, ?_, ?_⟩
  · intro h1 h2
    simp [transcribe_audio_gui, h1, h2]
  · intro h1 h2
    simp [transcribe_audio_gui, h1, h2]

/-- Witness for C10 at concrete inputs exercising each hypothesis. -/
theorem c10_gui_file_precedence_witness :
    transcribe_audio_gui wEnv none "https://youtu.be/x" "mp3" emptyFS []
      = ("YouTube links are not supported. Please use SoundCloud or another provider.",
          emptyFS, [])
    ∧ transcribe_audio_gui wEnv none "http://soundcloud.com/a" "mp3" emptyFS []
      = (transcribe_audio wEnv
            (get_audio wEnv.dl "http://soundcloud.com/a" "mp3" emptyFS []).1,
          (get_audio wEnv.dl "http://soundcloud.com/a" "mp3" emptyFS []).2.1,
          (get_audio wEnv.dl "http://soundcloud.com/a" "mp3" emptyFS []).2.2) := by
  have h1 := c10_gui_file_precedence wEnv "f" "https://youtu.be/x" "mp3" emptyFS []
  have h2 := c10_gui_file_precedence wEnv "f" "http://soundcloud.com/a" "mp3" emptyFS []
  exact ⟨h1.2.2.1 (by decide) (by decide), h2.2.2.2 (by decide) (by decide)⟩

/-- C8: the GUI variant rejects any URL whose lowercased form contains
"youtube.com" or "youtu.be" before any download attempt — the
unsupported-source message is returned and the filesystem and the
downloader invocation trace stay untouched — in both `get_audio_gui` and
the URL path of `transcribe_audio_gui`; the main.py
`prompt_for_audio_source` instead always hands the URL to the downloader
in link mode (the URL is appended to the invocation trace no matter what
host it names). -/
theorem c8_youtube_blocking_by_variant (env : Env) (url format_choice : String)
    (u : UserInputs) (fs : FS) (trace : List String)
    (hy : (pyInStr "youtube.com" (pyLower url) || pyInStr "youtu.be" (pyLower url)) = true) :
    get_audio_gui env url format_choice fs trace
      = ("YouTube links are not supported. Please use SoundCloud or another provider.",
          fs, trace)
    ∧ (url ≠ "" → transcribe_audio_gui env none url format_choice fs trace
        = ("YouTube links are not supported. Please use SoundCloud or another provider.",
            fs, trace))
    ∧ (pyStrip u.mode = "2" →
        (prompt_for_audio_source env u fs trace).2.2 = trace ++ [pyStrip u.url]) := by
  refine ⟨by simp [get_audio_gui, hy], ?_, ?_⟩
  · intro h1
    simp [transcribe_audio_gui, h1, hy]
  · intro hm
    simp only [prompt_for_audio_source, hm]
    norm_num
    cases hdl : env.dl.extract (pyStrip u.url) <;> simp [get_audio, hdl] <;> split <;> simp

/-- Witness for C8: a concrete YouTube URL is rejected by the GUI
resolver, while the main.py link mode invokes the downloader on the URL. -/
theorem c8_youtube_blocking_by_variant_witness :
    get_audio_gui wEnv "https://www.youtube.com/watch?v=abc" "mp3" emptyFS []
      = ("YouTube links are not supported. Please use SoundCloud or another provider.",
          emptyFS, [])
    ∧ (prompt_for_audio_source wEnv wInputs emptyFS []).2.2
        = [] ++ [pyStrip wInputs.url] := by
  have h := c8_youtube_blocking_by_variant wEnv "https://www.youtube.com/watch?v=abc" "mp3"
    wInputs emptyFS [] (by decide)
  exact ⟨h.1, h.2.2 (by decide)⟩

theorem main_text_to_pdf_v2_body_error (env : FpdfEnv) (text : String) :
    ∃ e, main_text_to_pdf_v2_body env text = .error e := by
  unfold main_text_to_pdf_v2_body
  cases env.multiCellOk text with
  | error e => exact ⟨e, rfl⟩
  | ok _ => exact ⟨"name image_paths is not defined", rfl⟩

theorem main_text_to_pdf_snd (env : FpdfEnv) (text fname : String) (fs : FS) :
    (main_text_to_pdf env text fname fs).2 = fs := by
  obtain ⟨e, he⟩ := main_text_to_pdf_v2_body_error env text
  unfold main_text_to_pdf
  rw [he]

theorem err_marker_startsWith (e : String) :
    pyStartsWith ("Error generating PDF with images: " ++ e)
      "Error generating PDF with images:" = true := rfl

theorem noNewPdf_refl (fs : FS) : NoNewPdf fs fs := fun _ _ h => h

theorem noNewPdf_trans {a b c : FS} (h1 : NoNewPdf a b) (h2 : NoNewPdf b c) :
    NoNewPdf a c := fun p d h => h1 p d (h2 p d h)

theorem noNewPdf_set_media (fs : FS) (q url : String) :
    NoNewPdf fs (fs.set q (.media url)) := by
  intro p d h
  unfold FS.set at h
  split at h
  · simp at h
  · exact h

theorem noNewPdf_del (fs : FS) (q : String) : NoNewPdf fs (fs.del q) := by
  intro p d h
  unfold FS.del at h
  split at h
  · simp at h
  · exact h

theorem noNewPdf_ite_del (fs fs2 : FS) (c : Prop) [Decidable c] (q : String)
    (h : NoNewPdf fs fs2) : NoNewPdf fs (if c then fs2.del q else fs2) := by
  split
  · exact noNewPdf_trans h (noNewPdf_del fs2 q)
  · exact h

theorem noNewPdf_main_pdf (env : FpdfEnv) (text fname : String) (fs : FS) :
    NoNewPdf fs (main_text_to_pdf env text fname fs).2 := by
  rw [main_text_to_pdf_snd]
  exact noNewPdf_refl fs

theorem noNewPdf_get_audio (env : DlEnv) (url fmt : String) (fs : FS) (trace : List String) :
    NoNewPdf fs (get_audio env url fmt fs trace).2.1 := by
  unfold get_audio
  cases env.extract url with
  | ok f => exact noNewPdf_set_media fs _ url
  | error e => exact noNewPdf_refl fs

theorem noNewPdf_prompt (env : Env) (u : UserInputs) (fs : FS) (trace : List String) :
    NoNewPdf fs (prompt_for_audio_source env u fs trace).2.1 := by
  unfold prompt_for_audio_source
  dsimp only
  split
  · exact noNewPdf_refl fs
  · split
    · split
      · dsimp only
        exact noNewPdf_get_audio env.dl (pyStrip u.url) "mp3" fs trace
      · exact noNewPdf_get_audio env.dl (pyStrip u.url) "mp3" fs trace
    · exact noNewPdf_refl fs

theorem noNewPdf_mainTranscribeCmd (env : Env) (u : UserInputs) (fs : FS)
    (trace : List String) : NoNewPdf fs (mainTranscribeCmd env u fs trace).1 := by
  unfold mainTranscribeCmd
  dsimp only
  split
  · exact noNewPdf_prompt env u fs trace
  · exact noNewPdf_ite_del _ _ _ _ (noNewPdf_prompt env u fs trace)

theorem noNewPdf_mainLyricsArticleCmd (env : Env) (u : UserInputs) (task : String) (fs : FS)
    (trace : List String) : NoNewPdf fs (mainLyricsArticleCmd env u task fs trace).1 := by
  unfold mainLyricsArticleCmd
  dsimp only
  split
  · exact noNewPdf_prompt env u fs trace
  · rw [main_text_to_pdf_snd]
    exact noNewPdf_ite_del _ _ _ _ (noNewPdf_prompt env u fs trace)

theorem noNewPdf_mainSummarizeCmd (env : Env) (u : UserInputs) (fs : FS)
    (trace : List String) : NoNewPdf fs (mainSummarizeCmd env u fs trace).1 := by
  unfold mainSummarizeCmd
  dsimp only
  split
  · split
    · exact noNewPdf_refl fs
    · dsimp only
      rw [main_text_to_pdf_snd]
      exact noNewPdf_refl fs
  · split
    · split
      · exact noNewPdf_refl fs
      · dsimp only
        rw [main_text_to_pdf_snd]
        exact noNewPdf_refl fs
    · exact noNewPdf_refl fs

theorem noNewPdf_mainGetAudioProcess (env : Env) (u : UserInputs) (p : String) (fs : FS)
    (trace : List String) : NoNewPdf fs (mainGetAudioProcess env u p fs trace).1 := by
  unfold mainGetAudioProcess
  dsimp only
  split
  · exact noNewPdf_refl fs
  · refine noNewPdf_ite_del _ _ _ _ ?_
    split
    · rw [main_text_to_pdf_snd]
      exact noNewPdf_refl fs
    · split
      · rw [main_text_to_pdf_snd]
        exact noNewPdf_refl fs
      · exact noNewPdf_refl fs

theorem noNewPdf_mainGetAudioCmd (env : Env) (u : UserInputs) (fs : FS)
    (trace : List String) : NoNewPdf fs (mainGetAudioCmd env u fs trace).1 := by
  unfold mainGetAudioCmd
  dsimp only
  split
  · split
    · dsimp only
      exact noNewPdf_get_audio env.dl (pyStrip u.url) (mainGetAudioFmt u) fs trace
    · exact noNewPdf_trans
        (noNewPdf_get_audio env.dl (pyStrip u.url) (mainGetAudioFmt u) fs trace)
        (noNewPdf_mainGetAudioProcess env u _ _ _)
  · split
    · split
      · exact noNewPdf_mainGetAudioProcess env u _ _ _
      · exact noNewPdf_refl fs
    · exact noNewPdf_refl fs

theorem noNewPdf_runCmd (env : Env) (line : String) (u : UserInputs) (fs : FS)
    (trace : List String) : NoNewPdf fs (runCmd env line u fs trace).1 := by
  unfold runCmd
  cases parseCmd line with
  | transcribe => exact noNewPdf_mainTranscribeCmd env u fs trace
  | lyrics => exact noNewPdf_mainLyricsArticleCmd env u "lyrics" fs trace
  | article => exact noNewPdf_mainLyricsArticleCmd env u "article" fs trace
  | summarize => exact noNewPdf_mainSummarizeCmd env u fs trace
  | getaudio => exact noNewPdf_mainGetAudioCmd env u fs trace
  | pressrelease =>
    show NoNewPdf fs (main_text_to_pdf _ _ _ fs).2
    rw [main_text_to_pdf_snd]
    exact noNewPdf_refl fs
  | social => exact noNewPdf_refl fs
  | epk =>
    show NoNewPdf fs (mainEpkCmd env u fs trace).1
    unfold mainEpkCmd
    dsimp only
    split
    · dsimp only
      rw [main_text_to_pdf_snd]
      exact noNewPdf_refl fs
    · exact noNewPdf_refl fs
  | chatCmd => exact noNewPdf_refl fs
  | freeform => exact noNewPdf_refl fs

/-- C2: in src/main.py the second `text_to_pdf` definition shadows the
first (module lookup resolves the name to the second one); the effective
`text_to_pdf` always returns a string beginning
`"Error generating PDF with images:"` and leaves the filesystem
untouched — when the text page renders, the error is precisely the
`NameError` for the unbound `image_paths` — and consequently no command
of the main.py dispatch loop ever creates a PDF file. -/
theorem c2_effective_text_to_pdf_always_fails :
    nsLookup mainPyPdfNamespace "text_to_pdf" = some main_text_to_pdf
    ∧ (∀ env text fname fs,
        pyStartsWith (main_text_to_pdf env text fname fs).1
          "Error generating PDF with images:" = true
        ∧ (main_text_to_pdf env text fname fs).2 = fs)
    ∧ (∀ env text fname fs, env.multiCellOk text = .ok () →
        (main_text_to_pdf env text fname fs).1
          = "Error generating PDF with images: name image_paths is not defined")
    ∧ (∀ env line u fs trace p d,
        (runCmd env line u fs trace).1 p = some (.pdf d) → fs p = some (.pdf d)) := by
  refine ⟨rfl, ?_, ?_, ?_⟩
  · intro env text fname fs
    refine ⟨?_, main_text_to_pdf_snd env text fname fs⟩
    obtain ⟨e, he⟩ := main_text_to_pdf_v2_body_error env text
    unfold main_text_to_pdf
    rw [he]
    exact err_marker_startsWith e
  · intro env text fname fs h
    unfold main_text_to_pdf main_text_to_pdf_v2_body
    rw [h]
    rfl
  · intro env line u fs trace p d
    exact noNewPdf_runCmd env line u fs trace p d

/-- Witness for C2: the effective `text_to_pdf` fails on a concrete call
with a succeeding renderer, and a command run on a filesystem already
holding a PDF shows the no-new-PDF conclusion at a satisfiable
hypothesis. -/
theorem c2_effective_text_to_pdf_always_fails_witness :
    (main_text_to_pdf wEnv.fpdf "hello" "out.pdf" emptyFS).1
      = "Error generating PDF with images: name image_paths is not defined"
    ∧ (emptyFS.set "old.pdf" (.pdf ⟨[]⟩)) "old.pdf" = some (.pdf ⟨[]⟩) :=
  ⟨c2_effective_text_to_pdf_always_fails.2.2.1 wEnv.fpdf "hello" "out.pdf" emptyFS rfl,
   c2_effective_text_to_pdf_always_fails.2.2.2 wEnv "/social" wInputs
     (emptyFS.set "old.pdf" (.pdf ⟨[]⟩)) [] "old.pdf" ⟨[]⟩ (by decide)⟩

theorem runLoop_term_iff (env : Env) (inputs : List (String × UserInputs)) :
    ∀ (fs : FS) (trace : List String),
      (runLoop env inputs fs trace).1 = .terminated
        ↔ ∃ p ∈ inputs, isExitInput p.1 = true := by
  induction inputs with
  | nil =>
    intro fs trace
    simp [runLoop]
  | cons p rest ih =>
    intro fs trace
    obtain ⟨line, u⟩ := p
    cases h : isExitInput line with
    | true =>
      simp only [runLoop, h, if_true]
      constructor
      · intro _
        exact ⟨(line, u), List.mem_cons_self _ _, h⟩
      · intro _
        trivial
    | false =>
      simp only [runLoop, h, Bool.false_eq_true, if_false]
      rw [ih]
      constructor
      · rintro ⟨q, hq, hqe⟩
        exact ⟨q, List.mem_cons_of_mem _ hq, hqe⟩
      · rintro ⟨q, hq, hqe⟩
        rcases List.mem_cons.mp hq with rfl | hq2
        · rw [hqe] at h
          cases h
        · exact ⟨q, hq2, hqe⟩

/-- C6: the dispatch loop of main.py terminates exactly when a consumed
input line, once stripped, equals "exit" or "quit" case-insensitively;
every other line is dispatched to its command and — whatever the
outcome of the command, the statement being uniform in the oracle environment
— the loop goes back to awaiting the next command, so `terminated` is
reached by no other path. -/
theorem c6_loop_terminates_only_on_exit (env : Env) (inputs : List (String × UserInputs))
    (fs : FS) (trace : List String) :
    ((runLoop env inputs fs trace).1 = .terminated
      ↔ ∃ p ∈ inputs, isExitInput p.1 = true)
    ∧ ∀ (line : String) (u : UserInputs) (rest : List (String × UserInputs))
        (fs2 : FS) (tr2 : List String), isExitInput line = false →
        runLoop env ((line, u) :: rest) fs2 tr2
          = runLoop env rest (runCmd env (pyStrip line) u fs2 tr2).1
              (runCmd env (pyStrip line) u fs2 tr2).2 := by
  refine ⟨runLoop_term_iff env inputs fs trace, ?_⟩
  intro line u rest fs2 tr2 h
  simp only [runLoop, h, Bool.false_eq_true, if_false]

/-- Witness for C6: a padded uppercase exit line terminates the loop,
and a concrete command line steps back into the loop. -/
theorem c6_loop_terminates_only_on_exit_witness :
    (runLoop wEnv [(" EXIT ", wInputs)] emptyFS []).1 = .terminated
    ∧ runLoop wEnv [("/social", wInputs)] emptyFS []
        = runLoop wEnv [] (runCmd wEnv (pyStrip "/social") wInputs emptyFS []).1
            (runCmd wEnv (pyStrip "/social") wInputs emptyFS []).2 :=
  ⟨(c6_loop_terminates_only_on_exit wEnv [(" EXIT ", wInputs)] emptyFS []).1.mpr
      ⟨(" EXIT ", wInputs), List.mem_cons_self _ _, by decide⟩,
   (c6_loop_terminates_only_on_exit wEnv [] emptyFS []).2 "/social" wInputs [] emptyFS []
      (by decide)⟩

theorem FS.del_self (fs : FS) (p : String) : (fs.del p) p = none := by
  unfold FS.del
  simp

/-- C7 counterexample: in the GUI variant a lyrics command that
auto-downloads its audio into the downloads area finishes successfully —
lyrics returned, PDF exported, downloader invoked once — yet the
downloaded file is still on disk afterwards: the auto-downloaded asset
is NOT deleted once its triggering command finishes. -/
theorem c7_counterexample :
    (generate_lyrics_gui wEnv none "http://soundcloud.com/a" "mp3" "out.pdf" emptyFS []).1
      = "generated"
    ∧ (generate_lyrics_gui wEnv none "http://soundcloud.com/a" "mp3" "out.pdf" emptyFS []).2.1
      = some "out.pdf"
    ∧ (generate_lyrics_gui wEnv none "http://soundcloud.com/a" "mp3" "out.pdf" emptyFS []).2.2.2
      = ["http://soundcloud.com/a"]
    ∧ (generate_lyrics_gui wEnv none "http://soundcloud.com/a" "mp3" "out.pdf" emptyFS
        []).2.2.1 "downloads/20250101000000_song.mp3"
      = some (.media "http://soundcloud.com/a") :=
  ⟨by decide, by decide, by decide, by decide⟩

theorem mainGetAudioProcess_deletes (env : Env) (u : UserInputs) (p : String) (fs : FS)
    (trace : List String) (hne : p ≠ "") (hp : (fs p).isSome = true) :
    ((mainGetAudioProcess env u p fs trace).1) p = none := by
  unfold mainGetAudioProcess
  dsimp only
  rw [if_neg hne]
  dsimp only
  split
  · rw [main_text_to_pdf_snd, if_pos hp]
    exact FS.del_self fs p
  · split
    · rw [main_text_to_pdf_snd, if_pos hp]
      exact FS.del_self fs p
    · exact FS.del_self fs p

theorem crawlImagesLoop_no_delete (env : CrawlEnv) (clock : Nat → PyDateTime) :
    ∀ (urls : List String) (i : Nat) (fs : FS) (p : String),
      (crawlImagesLoop env clock urls i fs).1 p = none → fs p = none := by
  intro urls
  induction urls with
  | nil =>
    intro i fs p h
    exact h
  | cons url rest ih =>
    intro i fs p h
    unfold crawlImagesLoop at h
    cases hg : env.imgGet url with
    | ok v =>
      rw [hg] at h
      dsimp only at h
      have h2 := ih (i + 1) _ p h
      unfold FS.set at h2
      split at h2
      · simp at h2
      · exact h2
    | error e =>
      rw [hg] at h
      exact ih i fs p h

theorem crawlImagesLoop_media_persists (env : CrawlEnv) (clock : Nat → PyDateTime) :
    ∀ (urls : List String) (i : Nat) (fs : FS) (p w : String),
      fs p = some (.media w) →
      ∃ w2, (crawlImagesLoop env clock urls i fs).1 p = some (.media w2) := by
  intro urls
  induction urls with
  | nil =>
    intro i fs p w h
    exact ⟨w, h⟩
  | cons url rest ih =>
    intro i fs p w h
    unfold crawlImagesLoop
    cases hg : env.imgGet url with
    | ok v =>
      dsimp only
      by_cases hp : p = webImageName (clock i)
      · refine ih (i + 1) _ p url ?_
        unfold FS.set
        rw [if_pos hp]
      · refine ih (i + 1) _ p w ?_
        unfold FS.set
        rw [if_neg hp]
        exact h
    | error e =>
      exact ih i fs p w h

theorem crawlImagesLoop_downloads_present (env : CrawlEnv) (clock : Nat → PyDateTime) :
    ∀ (urls : List String) (i : Nat) (fs : FS) (f : String),
      f ∈ (crawlImagesLoop env clock urls i fs).2 →
      ∃ w, (crawlImagesLoop env clock urls i fs).1 f = some (.media w) := by
  intro urls
  induction urls with
  | nil =>
    intro i fs f h
    exact absurd h (List.not_mem_nil f)
  | cons url rest ih =>
    intro i fs f h
    unfold crawlImagesLoop at h ⊢
    cases hg : env.imgGet url with
    | ok v =>
      rw [hg] at h
      dsimp only at h ⊢
      rcases List.mem_cons.mp h with rfl | h2
      · exact crawlImagesLoop_media_persists env clock rest (i + 1) _ _ url
          (by unfold FS.set; rw [if_pos rfl])
      · exact ih (i + 1) _ f h2
    | error e =>
      rw [hg] at h
      exact ih i fs f h

/-- C7 (amended): in src/main.py every command that auto-downloads
audio deletes the downloaded file once it finishes, whatever
transcription, generation and export returned — `/transcribe`,
`/lyrics` and `/article` (any task label), and `/getaudio` for
whichever format was chosen; the GUI variant never deletes its
auto-downloaded files (see the counterexample), and the image-crawl
loop `crawl_images_gui` deletes nothing and leaves every downloaded
image on disk. -/
theorem c7_main_commands_delete_download (env : Env) (u : UserInputs) (fs : FS)
    (trace : List String) (f0 dlpath dlpathG : String)
    (hdl : env.dl.extract (pyStrip u.url) = .ok f0)
    (hpath : dlpath = fixDownloadName f0 "mp3")
    (hne : dlpath ≠ "")
    (herr : pyStartsWith dlpath "Error" = false)
    (hpathG : dlpathG = fixDownloadName f0 (mainGetAudioFmt u))
    (hneG : dlpathG ≠ "")
    (herrG : pyStartsWith dlpathG "Error" = false) :
    (pyStrip u.mode = "2" → ((mainTranscribeCmd env u fs trace).1) dlpath = none)
    ∧ (pyStrip u.mode = "2" → ∀ task,
        ((mainLyricsArticleCmd env u task fs trace).1) dlpath = none)
    ∧ (pyStrip u.sourceChoice = "1" → ((mainGetAudioCmd env u fs trace).1) dlpathG = none)
    ∧ (∀ (cenv : CrawlEnv) (clock : Nat → PyDateTime) (curl : String) (fs2 : FS)
        (p : String),
        (crawl_images_gui cenv clock curl fs2).2 p = none → fs2 p = none)
    ∧ (∀ (cenv : CrawlEnv) (clock : Nat → PyDateTime) (curl : String) (fs2 : FS)
        (html : String) (imgUrls : List String) (f : String),
        cenv.page curl = .ok html → cenv.images html = .ok imgUrls →
        f ∈ (crawl_images_gui cenv clock curl fs2).1 →
        ∃ w, (crawl_images_gui cenv clock curl fs2).2 f = some (.media w)) := by
  have hga : get_audio env.dl (pyStrip u.url) "mp3" fs trace
      = (dlpath, fs.set dlpath (.media (pyStrip u.url)), trace ++ [pyStrip u.url]) := by
    unfold get_audio
    rw [hdl]
    dsimp only
    rw [← hpath]
  have hgaG : get_audio env.dl (pyStrip u.url) (mainGetAudioFmt u) fs trace
      = (dlpathG, fs.set dlpathG (.media (pyStrip u.url)), trace ++ [pyStrip u.url]) := by
    unfold get_audio
    rw [hdl]
    dsimp only
    rw [← hpathG]
  have hprompt : pyStrip u.mode = "2" → prompt_for_audio_source env u fs trace
      = (dlpath, fs.set dlpath (.media (pyStrip u.url)), trace ++ [pyStrip u.url]) := by
    intro hm
    unfold prompt_for_audio_source
    rw [hm]
    simp [hga, herr]
  refine ⟨?_, ?_, ?_, ?_, ?_⟩
  · intro hm
    unfold mainTranscribeCmd
    rw [hprompt hm]
    dsimp only
    rw [if_neg hne, if_pos (by simp [FS.set_self])]
    exact FS.del_self _ dlpath
  · intro hm task
    unfold mainLyricsArticleCmd
    rw [hprompt hm]
    dsimp only
    rw [if_neg hne]
    dsimp only
    rw [main_text_to_pdf_snd, if_pos (by simp [FS.set_self])]
    exact FS.del_self _ dlpath
  · intro hsrc
    unfold mainGetAudioCmd
    rw [hsrc]
    dsimp only
    rw [if_pos rfl, hgaG]
    simp only [herrG, Bool.false_eq_true, if_false]
    exact mainGetAudioProcess_deletes env u dlpathG _ _ hneG (by simp [FS.set_self])
  · intro cenv clock curl fs2 p h
    unfold crawl_images_gui at h
    cases hpage : cenv.page curl with
    | ok html =>
      rw [hpage] at h
      dsimp only at h
      cases himgs : cenv.images html with
      | ok urls =>
        rw [himgs] at h
        dsimp only at h
        exact crawlImagesLoop_no_delete cenv clock urls 0 fs2 p h
      | error e =>
        rw [himgs] at h
        exact h
    | error e =>
      rw [hpage] at h
      exact h
  · intro cenv clock curl fs2 html imgUrls f hpage himgs hmem
    unfold crawl_images_gui at hmem ⊢
    rw [hpage] at hmem ⊢
    dsimp only at hmem ⊢
    rw [himgs] at hmem ⊢
    dsimp only at hmem ⊢
    exact crawlImagesLoop_downloads_present cenv clock imgUrls 0 fs2 f hmem

/-- Witness for the amended C7 theorem: a concrete download deleted by
the main.py transcribe, lyrics and getaudio commands, and a concrete
crawl whose downloaded image survives and which deleted nothing. -/
theorem c7_main_commands_delete_download_witness :
    ((mainTranscribeCmd wEnv wInputs emptyFS []).1) "downloads/20250101000000_song.mp3" = none
    ∧ ((mainLyricsArticleCmd wEnv wInputs "lyrics" emptyFS []).1)
        "downloads/20250101000000_song.mp3" = none
    ∧ ((mainGetAudioCmd wEnv wInputs emptyFS []).1) "downloads/20250101000000_song.mp3"
        = none
    ∧ emptyFS "nowhere" = none
    ∧ ∃ w, (crawl_images_gui wCrawlEnv wClock "http://site" emptyFS).2
        (webImageName wDt1) = some (.media w) := by
  have h := c7_main_commands_delete_download wEnv wInputs emptyFS []
    "downloads/20250101000000_song.mp3" "downloads/20250101000000_song.mp3"
    "downloads/20250101000000_song.mp3"
    rfl (by decide) (by decide) (by decide) (by decide) (by decide) (by decide)
  refine ⟨h.1 (by decide), h.2.1 (by decide) "lyrics", h.2.2.1 (by decide), ?_, ?_⟩
  · exact h.2.2.2.1 wCrawlEnv wClock "http://site" emptyFS "nowhere" (by decide)
  · exact h.2.2.2.2 wCrawlEnv wClock "http://site" emptyFS "<html>" ["http://x/i1.jpg"]
      (webImageName wDt1) rfl rfl (by decide)

end MusicTool
